import Mathlib

/-!
Verification of the orthomosaic processing core of the repository
(src/Normalizacion.py and src/Indices.py).

Modelling choices, used throughout:
* Pixel values are rationals (`ℚ`); floating point arithmetic is modelled
  exactly.  The NaN sentinel produced by `_safe_divide` is modelled by
  `Option ℚ` at the pixel level (`none` = NaN).
* A 2-D raster plane is `Mat := List (List ℚ)` (rows of columns); a 3-D
  raster is `List Mat` (bands of planes).  For the index calculator, whose
  arithmetic is purely elementwise, a band is flattened to `Band := List ℚ`.
* Python attribute slots that may never be assigned are modelled with an
  outer `Option` (`none` = the attribute was never set, so accessing it
  raises `AttributeError`).
-/

set_option maxRecDepth 4000

abbrev Band := List ℚ

abbrev Mat := List (List ℚ)

/-- Numpy `xs[::10]`: every 10th element of a list, starting at index 0.
`k` counts how many elements are still to be skipped before the next kept
element. -/
def sliceAux {α : Type} : ℕ → List α → List α
  | _, [] => []
  | 0, x :: xs => x :: sliceAux 9 xs
  | k + 1, _ :: xs => sliceAux k xs

/-- Numpy `band[::10, ::10]`: every 10th row, and of each kept row every
10th column. -/
def sample10 (m : Mat) : Mat := (sliceAux 0 m).map (sliceAux 0)

/-- Numpy `np.clip(x, 0, 1)` on one value. -/
def clip01 (x : ℚ) : ℚ := min 1 (max 0 x)

def clipRow01 (r : List ℚ) : List ℚ := r.map clip01

def clipMat01 (m : Mat) : Mat := m.map clipRow01

/-- The zero-filled buffer `np.zeros_like` allocates for one band. -/
def zerosLike (m : Mat) : Mat := m.map (fun r => r.map (fun _ => 0))

/-- Elementwise division of a band by a scalar, `band / c`. -/
def scaleMat (m : Mat) (c : ℚ) : Mat := m.map (fun r => r.map (fun x => x / c))

/-- Numpy `np.nanmax` of a flattened sample.  The source never contains NaN
in our NaN-free normalisation model, so this is the plain maximum; it is
totalised with 0 on the empty list (numpy raises there). -/
def nanmax (xs : List ℚ) : ℚ := xs.foldl max (xs.headD 0)

def insertSorted (x : ℚ) : List ℚ → List ℚ
  | [] => [x]
  | y :: ys => if x ≤ y then x :: y :: ys else y :: insertSorted x ys

/-- Ascending insertion sort, modelling the sort performed inside
`np.nanpercentile`. -/
def sortAsc (xs : List ℚ) : List ℚ := xs.foldr insertSorted []

/-- Floor of a non-negative rational interpolation index. -/
def ratFloorNat (q : ℚ) : ℕ := (q.num / (q.den : ℤ)).toNat

/-- Numpy `np.nanpercentile(xs, q)` with the default linear interpolation:
with `s` the ascending sort of the data and `h = (q/100)·(n-1)`, the result
is `s[⌊h⌋] + (h - ⌊h⌋)·(s[⌊h⌋+1] - s[⌊h⌋])`. -/
def nanpercentile (xs : List ℚ) (q : ℚ) : ℚ :=
  let s := sortAsc xs
  let n := s.length
  let h : ℚ := q / 100 * ((n : ℚ) - 1)
  let f : ℕ := ratFloorNat h
  let lo := s.getD f 0
  let hi := s.getD (min (f + 1) (n - 1)) 0
  lo + (h - (f : ℚ)) * (hi - lo)

/-- One band of the 3-D branch of `normalize_radiometric`, before the final
clip: the band is classified by the maximum of its coarse sample and either
clipped, scaled by the 99.9th sample percentile, scaled by the sample
maximum, or (when a scaling guard fails) left as the zero-initialised
buffer `np.zeros_like` provides. -/
def normalize_band (band : Mat) : Mat :=
  let sample := sample10 band
  let current_max := nanmax sample.flatten
  if current_max ≤ 1 then clipMat01 band
  else if current_max > 3 / 2 then
    (let max_val := nanpercentile sample.flatten (999 / 10)
     if max_val > 0 then scaleMat band max_val else zerosLike band)
  else
    (if current_max > 0 then scaleMat band current_max else zerosLike band)

/-- The 3-D branch of `normalize_radiometric`: every band is normalised
independently and the whole result is clipped to [0,1]. -/
def normalize3 (arr : List Mat) : List Mat :=
  (arr.map normalize_band).map clipMat01

/-- The 2-D branch of `normalize_radiometric` (one plane treated as a
whole): the same three-way classification on the sampled maximum, then a
clip to [0,1]; a failed percentile guard leaves the array unscaled here. -/
def normalize2 (arr : Mat) : Mat :=
  let sample := sample10 arr
  let current_max := nanmax sample.flatten
  if current_max > 3 / 2 then
    (let max_val := nanpercentile sample.flatten (999 / 10)
     clipMat01 (if max_val > 0 then scaleMat arr max_val else arr))
  else if current_max > 1 then clipMat01 (scaleMat arr current_max)
  else clipMat01 arr

/-- The 1-D branch of `normalize_radiometric` (`arr.ndim > 1` is false, so
the sample is the whole array). -/
def normalize1 (arr : List ℚ) : List ℚ :=
  let current_max := nanmax arr
  if current_max > 3 / 2 then
    (let max_val := nanpercentile arr (999 / 10)
     (if max_val > 0 then arr.map (fun x => x / max_val) else arr).map clip01)
  else if current_max > 1 then (arr.map (fun x => x / current_max)).map clip01
  else arr.map clip01

/-- A numpy array of dimension 1, 2 or 3. -/
inductive NdArray
  | d1 (v : List ℚ)
  | d2 (m : Mat)
  | d3 (bs : List Mat)
deriving DecidableEq

/-- All pixel values of an array, flattened. -/
def ndValues : NdArray → List ℚ
  | NdArray.d1 v => v
  | NdArray.d2 m => m.flatten
  | NdArray.d3 bs => (bs.map List.flatten).flatten

/-- Embedding of `normalize_radiometric` (src/Normalizacion.py): `None`
passes through, a 3-D array is normalised band by band, everything else is
normalised as a single unit.  `astype(float32)` is the identity in the
exact-arithmetic model. -/
def normalize_radiometric : Option NdArray → Option NdArray
  | none => none
  | some (NdArray.d3 bs) => some (NdArray.d3 (normalize3 bs))
  | some (NdArray.d2 m) => some (NdArray.d2 (normalize2 m))
  | some (NdArray.d1 v) => some (NdArray.d1 (normalize1 v))

/-- C10: normalize_radiometric applied to a null (absent) input returns
null, with no exception: the embedded function is total and maps `none` to
`none`. -/
theorem normalize_radiometric_none_gives_none :
    normalize_radiometric none = none := rfl

/-- A rasterio geospatial profile, reduced to the fields
`align_to_reference` reads from it. -/
structure GeoProfile where
  crs : String
  transform : List ℚ
  width : ℕ
  height : ℕ

inductive Resampling
  | bilinear
  | nearest

/-- Embedding of `align_to_reference` (src/Normalizacion.py).  The `warp`
parameter abstracts the external rasterio machinery inside the `try` block
(MemoryFile round trip plus WarpedVRT read); an `Except.error` value models
an exception raised there.  The second component of the result is the list
of diagnostic messages printed. -/
def align_to_reference
    (warp : NdArray → GeoProfile → GeoProfile → Resampling → Except String NdArray)
    (target_array : Option NdArray) (ref_profile : GeoProfile)
    (src_profile : GeoProfile) (resampling : Resampling) :
    Option NdArray × List String :=
  match target_array with
  | none => (none, [])
  | some t =>
    match warp t ref_profile src_profile resampling with
    | Except.ok data => (some data, [])
    | Except.error e => (none, ["Error durante la alineacion espacial: " ++ e])

structure AlignedData where
  ms_data : Option NdArray
  rgb_aligned : Option NdArray

structure SessionResult where
  ms : Option NdArray
  rgb : Option NdArray

/-- Embedding of `normalize_all` (src/Normalizacion.py). -/
def normalize_all (aligned_data : AlignedData) : SessionResult :=
  { ms := normalize_radiometric aligned_data.ms_data
    rgb :=
      match aligned_data.rgb_aligned with
      | some r => normalize_radiometric (some r)
      | none => none }

/-- Embedding of `process_session` (src/Normalizacion.py): align the RGB
raster to the MS grid; a null aligned array aborts the session with null
outputs, otherwise both arrays are radiometrically normalised. -/
def process_session
    (warp : NdArray → GeoProfile → GeoProfile → Resampling → Except String NdArray)
    (ms_data : Option NdArray) (ms_profile : GeoProfile)
    (rgb_data : Option NdArray) (rgb_profile : GeoProfile) : SessionResult :=
  match align_to_reference warp rgb_data ms_profile rgb_profile Resampling.bilinear with
  | (none, _) => { ms := none, rgb := none }
  | (some rgb_aligned, _) =>
      normalize_all { ms_data := ms_data, rgb_aligned := some rgb_aligned }

/-- A Python exception class, as far as the index calculator can raise
one. -/
inductive PyErr
  | attributeError
  | typeError
deriving DecidableEq

/-- A Python value stored in the index dictionary: either `None` or an
index array (whose pixels may be the NaN sentinel). -/
inductive PyVal
  | vNone
  | vArr (pixels : List (Option ℚ))
deriving DecidableEq

/-- Band positions in the MS array (src/Indices.py). -/
def B_MS_RED : ℕ := 0

def B_MS_GREEN : ℕ := 1

def B_MS_NIR : ℕ := 2

def B_MS_RED_EDGE : ℕ := 3

/-- Band positions in the RGB array (src/Indices.py). -/
def B_RGB_RED : ℕ := 0

def B_RGB_GREEN : ℕ := 1

def B_RGB_BLUE : ℕ := 2

/-- The state built by `VegetationIndices.__init__`.  The `rgb_red`,
`rgb_green`, `rgb_blue` attribute slots are only assigned when an RGB
array is supplied: the outer `Option` is `none` for a never-assigned slot
(reading it raises `AttributeError`), and the inner value is the Python
content of the slot (`none` would be Python `None`; `__init__` only ever
stores actual band arrays). -/
structure VegetationIndices where
  ms_array : List Band
  rgb_array : Option (List Band)
  red : Band
  green : Band
  nir : Band
  red_edge : Band
  rgb_red : Option (Option Band)
  rgb_green : Option (Option Band)
  rgb_blue : Option (Option Band)
deriving DecidableEq

/-- The defensive 5-band check of `__init__`: a 5-band MS array keeps only
bands 0-3. -/
def msBind (ms_norm_array : List Band) : List Band :=
  if ms_norm_array.length = 5 then ms_norm_array.take 4 else ms_norm_array

/-- Embedding of `VegetationIndices.__init__` (src/Indices.py).  Python
indexing `a[i]` is totalised with `getD i []`; the claims only exercise
well-shaped inputs. -/
def VegetationIndices.init (ms_norm_array : List Band)
    (rgb_norm_array : Option (List Band)) : VegetationIndices :=
  { ms_array := msBind ms_norm_array
    rgb_array := rgb_norm_array
    red := (msBind ms_norm_array).getD B_MS_RED []
    green := (msBind ms_norm_array).getD B_MS_GREEN []
    nir := (msBind ms_norm_array).getD B_MS_NIR []
    red_edge := (msBind ms_norm_array).getD B_MS_RED_EDGE []
    rgb_red := rgb_norm_array.map (fun a => some (a.getD B_RGB_RED []))
    rgb_green := rgb_norm_array.map (fun a => some (a.getD B_RGB_GREEN []))
    rgb_blue := rgb_norm_array.map (fun a => some (a.getD B_RGB_BLUE [])) }

/-- One pixel of `VegetationIndices._safe_divide`: NaN (here `none`) where
the denominator is exactly zero or has magnitude below 1e-10, the plain
quotient elsewhere. -/
def safeDividePix (n d : ℚ) : Option ℚ :=
  if d = 0 ∨ |d| < 1 / 10 ^ 10 then none else some (n / d)

/-- Embedding of `VegetationIndices._safe_divide` for array numerators
(the `self` parameter is unused in the source; the masked numpy assignment
is elementwise, hence the `zipWith`). -/
def safe_divide (numerator denominator : List ℚ) : List (Option ℚ) :=
  List.zipWith safeDividePix numerator denominator

/-- Numpy `np.clip(x, -1, 1)` on one value. -/
def clipPm1 (x : ℚ) : ℚ := min 1 (max (-1) x)

/-- Embedding of `calculate_ndvi`: safe divide of NIR-RED by NIR+RED, then
clip to [-1,1] (NaN stays NaN). -/
def VegetationIndices.calculate_ndvi (s : VegetationIndices) : List (Option ℚ) :=
  (safe_divide (List.zipWith (fun a b => a - b) s.nir s.red)
      (List.zipWith (fun a b => a + b) s.nir s.red)).map (Option.map clipPm1)

/-- Embedding of `calculate_ndre`. -/
def VegetationIndices.calculate_ndre (s : VegetationIndices) : List (Option ℚ) :=
  (safe_divide (List.zipWith (fun a b => a - b) s.nir s.red_edge)
      (List.zipWith (fun a b => a + b) s.nir s.red_edge)).map (Option.map clipPm1)

/-- Embedding of `calculate_savi`: safe divide of NIR-RED by NIR+RED+L,
multiplied by 1+L, with no clip. -/
def VegetationIndices.calculate_savi (s : VegetationIndices) (L : ℚ) : List (Option ℚ) :=
  (safe_divide (List.zipWith (fun a b => a - b) s.nir s.red)
      (List.zipWith (fun a b => a + b + L) s.nir s.red)).map
    (Option.map (fun x => x * (1 + L)))

/-- Embedding of `calculate_gndvi`. -/
def VegetationIndices.calculate_gndvi (s : VegetationIndices) : List (Option ℚ) :=
  (safe_divide (List.zipWith (fun a b => a - b) s.nir s.green)
      (List.zipWith (fun a b => a + b) s.nir s.green)).map (Option.map clipPm1)

/-- Embedding of `calculate_vari`: reads the `rgb_green`, `rgb_red`,
`rgb_blue` attributes (raising `AttributeError` if `__init__` never set
them), then a safe divide with no clip.  Arithmetic on a slot holding
Python `None` would raise `TypeError`; `__init__` never stores `None`. -/
def VegetationIndices.calculate_vari (s : VegetationIndices) :
    Except PyErr (List (Option ℚ)) :=
  match s.rgb_green, s.rgb_red, s.rgb_blue with
  | none, _, _ => Except.error PyErr.attributeError
  | _, none, _ => Except.error PyErr.attributeError
  | _, _, none => Except.error PyErr.attributeError
  | some gv, some rv, some bv =>
    match gv, rv, bv with
    | some g, some r, some b =>
        Except.ok (safe_divide (List.zipWith (fun x y => x - y) g r)
          (List.zipWith (fun x y => x - y) (List.zipWith (fun x y => x + y) g r) b))
    | _, _, _ => Except.error PyErr.typeError

/-- Embedding of `calculate_exg`: reading `self.rgb_blue` raises
`AttributeError` when `__init__` never assigned it; the explicit
`is None` check returns Python `None`; otherwise ExG = 2·GREEN-RED-BLUE
with no clip and no safe divide. -/
def VegetationIndices.calculate_exg (s : VegetationIndices) : Except PyErr PyVal :=
  match s.rgb_blue with
  | none => Except.error PyErr.attributeError
  | some none => Except.ok PyVal.vNone
  | some (some b) =>
    match s.rgb_green, s.rgb_red with
    | none, _ => Except.error PyErr.attributeError
    | _, none => Except.error PyErr.attributeError
    | some gv, some rv =>
      match gv, rv with
      | some g, some r =>
          Except.ok (PyVal.vArr
            ((List.zipWith (fun x y => x - y)
                (List.zipWith (fun x y => x - y) (g.map (fun x => 2 * x)) r) b).map some))
      | _, _ => Except.error PyErr.typeError

/-- Embedding of `calculate_evi_hybrid`: reading `self.rgb_blue` raises
`AttributeError` when `__init__` never assigned it; the `is None` check
returns Python `None`; otherwise the simplified EVI
2.5 · safe_divide(NIR-RED, NIR + 2.4·RED + 1), which does not use BLUE
and applies no clip. -/
def VegetationIndices.calculate_evi_hybrid (s : VegetationIndices) : Except PyErr PyVal :=
  match s.rgb_blue with
  | none => Except.error PyErr.attributeError
  | some none => Except.ok PyVal.vNone
  | some (some _) =>
    Except.ok (PyVal.vArr
      ((safe_divide (List.zipWith (fun a b => a - b) s.nir s.red)
          (List.zipWith (fun a b => a + 12 / 5 * b + 1) s.nir s.red)).map
        (Option.map (fun x => 5 / 2 * x))))

/-- Embedding of `calculate_main_indices`: the four MS indices always, the
three RGB indices only when an RGB array was supplied at construction; a
Python exception raised by any RGB index propagates. -/
def VegetationIndices.calculate_main_indices (s : VegetationIndices) :
    Except PyErr (List (String × PyVal)) :=
  let indices : List (String × PyVal) :=
    [("ndvi", PyVal.vArr s.calculate_ndvi),
     ("ndre", PyVal.vArr s.calculate_ndre),
     ("savi", PyVal.vArr (s.calculate_savi (1 / 2))),
     ("gndvi", PyVal.vArr s.calculate_gndvi)]
  match s.rgb_array with
  | none => Except.ok indices
  | some _ =>
    match s.calculate_vari, s.calculate_exg, s.calculate_evi_hybrid with
    | Except.ok v, Except.ok e, Except.ok ev =>
        Except.ok (indices ++ [("vari", PyVal.vArr v), ("exg", e), ("evi", ev)])
    | Except.error err, _, _ => Except.error err
    | _, Except.error err, _ => Except.error err
    | _, _, Except.error err => Except.error err

lemma mem_sliceAux {α : Type} (x : α) :
    ∀ (k : ℕ) (xs : List α), x ∈ sliceAux k xs → x ∈ xs
  | _, [], h => by simp [sliceAux] at h
  | 0, y :: ys, h => by
      rcases List.mem_cons.mp (by simpa [sliceAux] using h) with h1 | h2
      · simp [h1]
      · exact List.mem_cons_of_mem y (mem_sliceAux x 9 ys h2)
  | k + 1, y :: ys, h =>
      List.mem_cons_of_mem y (mem_sliceAux x k ys (by simpa [sliceAux] using h))

lemma mem_of_mem_sample10 {x : ℚ} {m : Mat} (h : x ∈ (sample10 m).flatten) :
    x ∈ m.flatten := by
  rcases List.mem_flatten.mp h with ⟨r, hr, hx⟩
  rcases List.mem_map.mp hr with ⟨r0, hr0, rfl⟩
  exact List.mem_flatten.mpr ⟨r0, mem_sliceAux r0 0 m hr0, mem_sliceAux x 0 r0 hx⟩

lemma foldl_max_le {c : ℚ} :
    ∀ (xs : List ℚ) (init : ℚ), init ≤ c → (∀ x ∈ xs, x ≤ c) → xs.foldl max init ≤ c
  | [], _, hi, _ => hi
  | x :: xs, init, hi, hall =>
      foldl_max_le xs (max init x) (max_le hi (hall x (List.mem_cons_self x xs)))
        (fun y hy => hall y (List.mem_cons_of_mem x hy))

lemma nanmax_le {c : ℚ} (hc : 0 ≤ c) (xs : List ℚ) (h : ∀ x ∈ xs, x ≤ c) :
    nanmax xs ≤ c := by
  cases xs with
  | nil => simpa [nanmax] using hc
  | cons y ys =>
      exact foldl_max_le (y :: ys) ((y :: ys).headD 0)
        (h y (List.mem_cons_self y ys)) h

lemma clip01_eq_self {x : ℚ} (h0 : 0 ≤ x) (h1 : x ≤ 1) : clip01 x = x := by
  rw [clip01, max_eq_right h0, min_eq_right h1]

lemma clip01_idem (x : ℚ) : clip01 (clip01 x) = clip01 x := by
  have h0 : 0 ≤ min 1 (max 0 x) := le_min (by norm_num) (le_max_left 0 x)
  rw [clip01, clip01, max_eq_right h0, ← min_assoc, min_self]

lemma map_congr_self {α β : Type} (l : List α) (f g : α → β)
    (h : ∀ a ∈ l, f a = g a) : l.map f = l.map g := by
  induction l with
  | nil => rfl
  | cons x xs ih =>
      rw [List.map_cons, List.map_cons, h x (List.mem_cons_self x xs),
        ih (fun a ha => h a (List.mem_cons_of_mem x ha))]

lemma map_eq_self {α : Type} (l : List α) (f : α → α) (h : ∀ a ∈ l, f a = a) :
    l.map f = l := by
  rw [map_congr_self l f id h, List.map_id]

lemma clipRow01_idem (r : List ℚ) : clipRow01 (clipRow01 r) = clipRow01 r := by
  simp only [clipRow01, List.map_map]
  exact map_congr_self r _ _ (fun a _ => clip01_idem a)

lemma clipMat01_idem (m : Mat) : clipMat01 (clipMat01 m) = clipMat01 m := by
  simp only [clipMat01, List.map_map]
  exact map_congr_self m _ _ (fun r _ => clipRow01_idem r)

lemma clipRow01_eq_self (r : List ℚ) (h : ∀ x ∈ r, 0 ≤ x ∧ x ≤ 1) :
    clipRow01 r = r :=
  map_eq_self r clip01 (fun x hx => clip01_eq_self (h x hx).1 (h x hx).2)

lemma clipMat01_eq_self (m : Mat) (h : ∀ x ∈ m.flatten, 0 ≤ x ∧ x ≤ 1) :
    clipMat01 m = m :=
  map_eq_self m clipRow01 (fun r hr =>
    clipRow01_eq_self r (fun x hx => h x (List.mem_flatten.mpr ⟨r, hr, hx⟩)))

lemma getD_map {α β : Type} (f : α → β) (da : α) (db : β) :
    ∀ (l : List α) (i : ℕ), i < l.length → (l.map f).getD i db = f (l.getD i da)
  | [], i, h => absurd h (by simp)
  | x :: xs, 0, _ => rfl
  | x :: xs, i + 1, h =>
      getD_map f da db xs i (by simpa [Nat.succ_lt_succ_iff] using h)

lemma getD_zipWith {α β γ : Type} (f : α → β → γ) (da : α) (db : β) (dc : γ) :
    ∀ (as : List α) (bs : List β) (i : ℕ), i < as.length → i < bs.length →
      (List.zipWith f as bs).getD i dc = f (as.getD i da) (bs.getD i db)
  | [], _, _, ha, _ => absurd ha (by simp)
  | _ :: _, [], _, _, hb => absurd hb (by simp)
  | a :: as, b :: bs, 0, _, _ => rfl
  | a :: as, b :: bs, i + 1, ha, hb =>
      getD_zipWith f da db dc as bs i (by simpa [Nat.succ_lt_succ_iff] using ha)
        (by simpa [Nat.succ_lt_succ_iff] using hb)

lemma zipWith_pair {α β γ δ ε : Type} (f : α → β → γ) (g : α → β → δ)
    (h : γ → δ → ε) :
    ∀ (as : List α) (bs : List β),
      List.zipWith h (List.zipWith f as bs) (List.zipWith g as bs)
        = List.zipWith (fun x y => h (f x y) (g x y)) as bs
  | [], _ => by simp
  | _ :: _, [] => by simp
  | a :: as, b :: bs => by
      simpa using zipWith_pair f g h as bs

/-- C3: for arrays of matching shape, `_safe_divide` returns the NaN
sentinel at exactly those pixels where the denominator is 0 or has
magnitude below 1e-10, and the ordinary quotient at every other pixel. -/
theorem safe_divide_sentinel_exactly (n d : List ℚ) (h : n.length = d.length)
    (i : ℕ) (hi : i < d.length) :
    (safe_divide n d).getD i none =
      if d.getD i 0 = 0 ∨ |d.getD i 0| < 1 / 10 ^ 10 then none
      else some (n.getD i 0 / d.getD i 0) := by
  rw [safe_divide, getD_zipWith safeDividePix 0 0 none n d i (by omega) hi]
  rfl

theorem safe_divide_sentinel_exactly_witness :
    (safe_divide [(1 : ℚ)] [(3 : ℚ)]).getD 0 none =
      if ([(3 : ℚ)].getD 0 0) = 0 ∨ |[(3 : ℚ)].getD 0 0| < 1 / 10 ^ 10 then none
      else some ([(1 : ℚ)].getD 0 0 / [(3 : ℚ)].getD 0 0) :=
  safe_divide_sentinel_exactly [1] [3] rfl 0 (by simp)

/-- C6 (code bug): constructed without an RGB array, `__init__` never
assigns the `rgb_blue` attribute, so `calculate_exg` and
`calculate_evi_hybrid` raise `AttributeError` at the `self.rgb_blue`
read instead of returning `None` as their own `is None` guard intends. -/
theorem exg_evi_raise_attribute_error_without_rgb (ms : List Band) :
    (VegetationIndices.init ms none).calculate_exg
        = Except.error PyErr.attributeError ∧
      (VegetationIndices.init ms none).calculate_evi_hybrid
        = Except.error PyErr.attributeError :=
  ⟨rfl, rfl⟩

/-- C8: the main-indices mapping always carries the keys ndvi, ndre, savi
and gndvi, and carries vari, exg, evi exactly when an RGB array was
supplied at construction. -/
theorem main_indices_key_presence (ms : List Band) (rgb : Option (List Band)) :
    ∃ l, (VegetationIndices.init ms rgb).calculate_main_indices = Except.ok l ∧
      "ndvi" ∈ l.map Prod.fst ∧ "ndre" ∈ l.map Prod.fst ∧
      "savi" ∈ l.map Prod.fst ∧ "gndvi" ∈ l.map Prod.fst ∧
      ("vari" ∈ l.map Prod.fst ↔ rgb.isSome = true) ∧
      ("exg" ∈ l.map Prod.fst ↔ rgb.isSome = true) ∧
      ("evi" ∈ l.map Prod.fst ↔ rgb.isSome = true) := by
  cases rgb with
  | none =>
      refine ⟨_, rfl, ?_⟩
      simp
  | some r =>
      refine ⟨_, rfl, ?_⟩
      simp

/-- C9: two 5-band MS arrays agreeing on bands 0-3 produce identical
calculator states (only bands 0-3 are bound), hence identical outputs for
every computed index. -/
theorem fifth_band_has_no_effect (ms1 ms2 : List Band) (rgb : Option (List Band))
    (h1 : ms1.length = 5) (h2 : ms2.length = 5)
    (hagree : ms1.take 4 = ms2.take 4) :
    VegetationIndices.init ms1 rgb = VegetationIndices.init ms2 rgb ∧
      (VegetationIndices.init ms1 rgb).calculate_main_indices
        = (VegetationIndices.init ms2 rgb).calculate_main_indices := by
  have hb : msBind ms1 = msBind ms2 := by
    rw [msBind, msBind, if_pos h1, if_pos h2, hagree]
  have hinit : VegetationIndices.init ms1 rgb = VegetationIndices.init ms2 rgb := by
    simp only [VegetationIndices.init, hb]
  exact ⟨hinit, by rw [hinit]⟩

theorem fifth_band_has_no_effect_witness :
    VegetationIndices.init [[1], [2], [3], [4], [5]] none
        = VegetationIndices.init [[1], [2], [3], [4], [9]] none ∧
      (VegetationIndices.init [[1], [2], [3], [4], [5]] none).calculate_main_indices
        = (VegetationIndices.init [[1], [2], [3], [4], [9]] none).calculate_main_indices :=
  fifth_band_has_no_effect [[1], [2], [3], [4], [5]] [[1], [2], [3], [4], [9]] none
    rfl rfl rfl

lemma clipPm1_bounds (x : ℚ) : -1 ≤ clipPm1 x ∧ clipPm1 x ≤ 1 :=
  ⟨le_min (by norm_num) (le_max_left (-1) x), min_le_left 1 (max (-1) x)⟩

lemma clipped_pixels_in_range (xs : List (Option ℚ)) :
    ∀ p ∈ xs.map (Option.map clipPm1),
      p = none ∨ ∃ q : ℚ, p = some q ∧ -1 ≤ q ∧ q ≤ 1 := by
  intro p hp
  rcases List.mem_map.mp hp with ⟨o, _, rfl⟩
  cases o with
  | none => exact Or.inl rfl
  | some v => exact Or.inr ⟨clipPm1 v, rfl, (clipPm1_bounds v).1, (clipPm1_bounds v).2⟩

/-- C5 (amended): for normalized MS inputs, every pixel of NDVI, NDRE and
GNDVI is either the NaN sentinel (degenerate denominator) or lies in
[-1,1]. -/
theorem ratio_indices_pixels_clipped_or_nan (ms : List Band)
    (rgb : Option (List Band)) (_hms : ∀ b ∈ ms, ∀ x ∈ b, 0 ≤ x ∧ x ≤ 1) :
    (∀ p ∈ (VegetationIndices.init ms rgb).calculate_ndvi,
        p = none ∨ ∃ q : ℚ, p = some q ∧ -1 ≤ q ∧ q ≤ 1) ∧
      (∀ p ∈ (VegetationIndices.init ms rgb).calculate_ndre,
        p = none ∨ ∃ q : ℚ, p = some q ∧ -1 ≤ q ∧ q ≤ 1) ∧
      (∀ p ∈ (VegetationIndices.init ms rgb).calculate_gndvi,
        p = none ∨ ∃ q : ℚ, p = some q ∧ -1 ≤ q ∧ q ≤ 1) :=
  ⟨clipped_pixels_in_range _, clipped_pixels_in_range _, clipped_pixels_in_range _⟩

theorem ratio_indices_pixels_clipped_or_nan_witness :
    (∀ p ∈ (VegetationIndices.init [[0], [0], [1], [0]] none).calculate_ndvi,
        p = none ∨ ∃ q : ℚ, p = some q ∧ -1 ≤ q ∧ q ≤ 1) ∧
      (∀ p ∈ (VegetationIndices.init [[0], [0], [1], [0]] none).calculate_ndre,
        p = none ∨ ∃ q : ℚ, p = some q ∧ -1 ≤ q ∧ q ≤ 1) ∧
      (∀ p ∈ (VegetationIndices.init [[0], [0], [1], [0]] none).calculate_gndvi,
        p = none ∨ ∃ q : ℚ, p = some q ∧ -1 ≤ q ∧ q ≤ 1) :=
  ratio_indices_pixels_clipped_or_nan [[0], [0], [1], [0]] none (by decide)

def msZero : List Band := [[0], [0], [0], [0]]

/-- C5 counterexample: with all MS values in [0,1] (all zero), the NDVI
output pixel is the NaN sentinel, which is not a value in [-1,1]; so the
claim that every pixel lies in [-1,1] fails at this input. -/
theorem ndvi_in_range_counterexample :
    (∀ b ∈ msZero, ∀ x ∈ b, 0 ≤ x ∧ x ≤ 1) ∧
      (VegetationIndices.init msZero none).calculate_ndvi = [none] ∧
      ¬ (∀ p ∈ (VegetationIndices.init msZero none).calculate_ndvi,
          ∃ q : ℚ, p = some q ∧ -1 ≤ q ∧ q ≤ 1) := by
  have he : (VegetationIndices.init msZero none).calculate_ndvi = [none] := by
    norm_num [VegetationIndices.init, VegetationIndices.calculate_ndvi, msZero,
      msBind, safe_divide, safeDividePix, B_MS_NIR, B_MS_RED]
  refine ⟨by decide, he, ?_⟩
  intro hall
  have hmem : (none : Option ℚ) ∈ (VegetationIndices.init msZero none).calculate_ndvi := by
    rw [he]
    exact List.mem_singleton.mpr rfl
  rcases hall none hmem with ⟨q, hq, _⟩
  exact Option.noConfusion hq

/-- The EVI formula exactly as the spec's table states it,
2.5 × (NIR−RED)/(NIR+6·RED−7.5·BLUE+1) with the safe-divide sentinel:
a comparison definition built from the spec's words, to be measured
against the source's `calculate_evi_hybrid`. -/
def evi_spec_pixel (nir red blue : ℚ) : Option ℚ :=
  (safeDividePix (nir - red) (nir + 6 * red - 15 / 2 * blue + 1)).map
    (fun x => 5 / 2 * x)

def msC1 : List Band := [[1 / 5], [0], [3 / 5], [0]]

def rgbC1 : List Band := [[0], [0], [1 / 2]]

/-- C1 counterexample: at NIR=0.6, RED=0.2, BLUE=0.5 the code returns
2.5·(0.4)/(0.6+2.4·0.2+1) = 25/52, while the spec formula
2.5·(0.4)/(0.6+1.2−3.75+1) gives −20/19; the two disagree, so the claimed
formula is not the one computed. -/
theorem evi_formula_counterexample :
    (VegetationIndices.init msC1 (some rgbC1)).calculate_evi_hybrid
        = Except.ok (PyVal.vArr [some (25 / 52)]) ∧
      evi_spec_pixel (3 / 5) (1 / 5) (1 / 2) = some (-(20 / 19)) ∧
      ((25 : ℚ) / 52) ≠ -(20 / 19) := by
  refine ⟨?_, ?_, by norm_num⟩
  · norm_num [VegetationIndices.init, VegetationIndices.calculate_evi_hybrid, msC1,
      rgbC1, msBind, safe_divide, safeDividePix, abs_of_pos,
      B_MS_RED, B_MS_GREEN, B_MS_NIR, B_MS_RED_EDGE, B_RGB_RED, B_RGB_GREEN, B_RGB_BLUE]
  · norm_num [evi_spec_pixel, safeDividePix, abs_of_neg]

/-- C1 (amended): for every calculator constructed with an RGB array, the
EVI computation returns at every pixel 2.5 × (NIR−RED)/(NIR+2.4·RED+1)
with the safe-divide sentinel and no clipping; BLUE does not enter the
formula (it only gates availability). -/
theorem evi_matches_simplified_formula (ms rgbA : List Band) :
    (VegetationIndices.init ms (some rgbA)).calculate_evi_hybrid =
      Except.ok (PyVal.vArr (List.zipWith
        (fun nv rv => (safeDividePix (nv - rv) (nv + 12 / 5 * rv + 1)).map
          (fun x => 5 / 2 * x))
        (VegetationIndices.init ms (some rgbA)).nir
        (VegetationIndices.init ms (some rgbA)).red)) := by
  have key : ∀ (a b : Band),
      (safe_divide (List.zipWith (fun x y => x - y) a b)
          (List.zipWith (fun x y => x + 12 / 5 * y + 1) a b)).map
        (Option.map (fun x => 5 / 2 * x))
      = List.zipWith
          (fun nv rv => (safeDividePix (nv - rv) (nv + 12 / 5 * rv + 1)).map
            (fun x => 5 / 2 * x)) a b := by
    intro a b
    rw [safe_divide, zipWith_pair, List.map_zipWith]
  exact congrArg (fun t => Except.ok (PyVal.vArr t)) (key _ _)

/-- C4: normalizing an array whose values already lie in [0,1] returns the
array unchanged, in every dimensionality branch. -/
theorem normalize_radiometric_idempotent (a : NdArray)
    (hv : ∀ x ∈ ndValues a, 0 ≤ x ∧ x ≤ 1) :
    normalize_radiometric (some a) = some a := by
  cases a with
  | d1 v =>
      have hmax : nanmax v ≤ 1 :=
        nanmax_le (by norm_num) v (fun x hx => (hv x hx).2)
      simp only [normalize_radiometric, normalize1]
      rw [if_neg (not_lt.mpr (le_trans hmax (by norm_num))), if_neg (not_lt.mpr hmax)]
      exact congrArg (fun t => some (NdArray.d1 t))
        (map_eq_self v clip01 (fun x hx => clip01_eq_self (hv x hx).1 (hv x hx).2))
  | d2 m =>
      have hmax : nanmax (sample10 m).flatten ≤ 1 :=
        nanmax_le (by norm_num) _ (fun x hx => (hv x (mem_of_mem_sample10 hx)).2)
      simp only [normalize_radiometric, normalize2]
      rw [if_neg (not_lt.mpr (le_trans hmax (by norm_num))), if_neg (not_lt.mpr hmax)]
      exact congrArg (fun t => some (NdArray.d2 t)) (clipMat01_eq_self m hv)
  | d3 bs =>
      simp only [normalize_radiometric, normalize3]
      refine congrArg (fun t => some (NdArray.d3 t)) ?_
      rw [List.map_map]
      apply map_eq_self
      intro b hb
      have hvb : ∀ x ∈ b.flatten, 0 ≤ x ∧ x ≤ 1 := fun x hx =>
        hv x (List.mem_flatten.mpr ⟨b.flatten, List.mem_map.mpr ⟨b, hb, rfl⟩, hx⟩)
      have hmax : nanmax (sample10 b).flatten ≤ 1 :=
        nanmax_le (by norm_num) _ (fun x hx => (hvb x (mem_of_mem_sample10 hx)).2)
      show clipMat01 (normalize_band b) = b
      simp only [normalize_band]
      rw [if_pos hmax, clipMat01_idem, clipMat01_eq_self b hvb]

theorem normalize_radiometric_idempotent_witness :
    normalize_radiometric (some (NdArray.d3 [[[0, 1]]]))
      = some (NdArray.d3 [[[0, 1]]]) :=
  normalize_radiometric_idempotent (NdArray.d3 [[[0, 1]]]) (by decide)

/-- C2 (amended): in the 3-D branch, a band whose sampled maximum is ≤ 0
is returned unscaled up to the final clip; but a band whose sampled
maximum exceeds 1.5 while its 99.9th-percentile scaling estimate is ≤ 0
is returned as the zero-initialised buffer, not unscaled; and every branch
either performs no scaling, scales by a strictly positive estimated
maximum, or zero-fills — never dividing by a non-positive estimate. -/
theorem normalize_band_degenerate_max_guard (bs : List Mat) (i : ℕ)
    (hi : i < bs.length) :
    (nanmax (sample10 (bs.getD i [])).flatten ≤ 0 →
        (normalize3 bs).getD i [] = clipMat01 (bs.getD i [])) ∧
      ((3 / 2 < nanmax (sample10 (bs.getD i [])).flatten ∧
          nanpercentile (sample10 (bs.getD i [])).flatten (999 / 10) ≤ 0) →
        (normalize3 bs).getD i [] = clipMat01 (zerosLike (bs.getD i []))) ∧
      ((normalize3 bs).getD i [] = clipMat01 (bs.getD i [])
        ∨ (∃ m : ℚ, 0 < m ∧
            (normalize3 bs).getD i [] = clipMat01 (scaleMat (bs.getD i []) m))
        ∨ (normalize3 bs).getD i [] = clipMat01 (zerosLike (bs.getD i []))) := by
  have hkey : (normalize3 bs).getD i [] = clipMat01 (normalize_band (bs.getD i [])) := by
    rw [normalize3, List.map_map]
    exact getD_map _ [] [] bs i hi
  rw [hkey]
  refine ⟨?_, ?_, ?_⟩
  · intro h0
    have h1 : nanmax (sample10 (bs.getD i [])).flatten ≤ 1 :=
      le_trans h0 (by norm_num)
    simp only [normalize_band]
    rw [if_pos h1, clipMat01_idem]
  · rintro ⟨hgt, hple⟩
    have h1 : ¬ nanmax (sample10 (bs.getD i [])).flatten ≤ 1 :=
      not_le.mpr (lt_trans (by norm_num) hgt)
    simp only [normalize_band]
    rw [if_neg h1, if_pos hgt, if_neg (not_lt.mpr hple)]
  · simp only [normalize_band]
    by_cases h1 : nanmax (sample10 (bs.getD i [])).flatten ≤ 1
    · rw [if_pos h1, clipMat01_idem]
      exact Or.inl rfl
    · rw [if_neg h1]
      by_cases h2 : nanmax (sample10 (bs.getD i [])).flatten > 3 / 2
      · rw [if_pos h2]
        by_cases h3 : nanpercentile (sample10 (bs.getD i [])).flatten (999 / 10) > 0
        · rw [if_pos h3]
          exact Or.inr (Or.inl ⟨_, h3, rfl⟩)
        · rw [if_neg h3]
          exact Or.inr (Or.inr rfl)
      · rw [if_neg h2, if_pos (lt_trans one_pos (not_le.mp h1))]
        exact Or.inr (Or.inl ⟨_, lt_trans one_pos (not_le.mp h1), rfl⟩)

theorem normalize_band_degenerate_max_guard_witness :
    (nanmax (sample10 (([[[(0 : ℚ)]]] : List Mat).getD 0 [])).flatten ≤ 0 →
        (normalize3 [[[(0 : ℚ)]]]).getD 0 []
          = clipMat01 (([[[(0 : ℚ)]]] : List Mat).getD 0 [])) ∧
      ((3 / 2 < nanmax (sample10 (([[[(0 : ℚ)]]] : List Mat).getD 0 [])).flatten ∧
          nanpercentile (sample10 (([[[(0 : ℚ)]]] : List Mat).getD 0 [])).flatten (999 / 10) ≤ 0) →
        (normalize3 [[[(0 : ℚ)]]]).getD 0 []
          = clipMat01 (zerosLike (([[[(0 : ℚ)]]] : List Mat).getD 0 []))) ∧
      ((normalize3 [[[(0 : ℚ)]]]).getD 0 []
          = clipMat01 (([[[(0 : ℚ)]]] : List Mat).getD 0 [])
        ∨ (∃ m : ℚ, 0 < m ∧ (normalize3 [[[(0 : ℚ)]]]).getD 0 []
            = clipMat01 (scaleMat (([[[(0 : ℚ)]]] : List Mat).getD 0 []) m))
        ∨ (normalize3 [[[(0 : ℚ)]]]).getD 0 []
            = clipMat01 (zerosLike (([[[(0 : ℚ)]]] : List Mat).getD 0 []))) :=
  normalize_band_degenerate_max_guard [[[(0 : ℚ)]]] 0 (by simp)

def badBand : Mat :=
  [[-1000] ++ List.replicate 9 0 ++ [-1000] ++ List.replicate 9 0 ++ [2]]

/-- C2 counterexample: this 1×21 band samples to [-1000, -1000, 2], whose
maximum 2 exceeds 1.5 while its 99.9th percentile is -1/250 ≤ 0; the
normalizer then returns the zero buffer for the band, which differs from
the input band clipped to [0,1] (the pixel holding 2 clips to 1 but is
output as 0), refuting the claim that such a band is returned unscaled. -/
theorem normalize_band_percentile_counterexample :
    (3 / 2 < nanmax (sample10 badBand).flatten
        ∧ nanpercentile (sample10 badBand).flatten (999 / 10) ≤ 0)
      ∧ (normalize3 [badBand]).getD 0 [] ≠ clipMat01 badBand := by
  norm_num [badBand, sample10, sliceAux, List.replicate, nanpercentile, sortAsc,
    insertSorted, ratFloorNat, nanmax, normalize3, normalize_band, clipMat01,
    clipRow01, clip01, zerosLike, scaleMat]

/-- C7: aligning a null target returns null with no diagnostic and no
exception; a failed warp is caught, a diagnostic is emitted and null is
returned; and process_session, upon a null aligned RGB, returns null for
both ms and rgb without normalizing either array. -/
theorem alignment_failure_is_recovered
    (warp : NdArray → GeoProfile → GeoProfile → Resampling → Except String NdArray)
    (pa pb : GeoProfile) (rs : Resampling) :
    align_to_reference warp none pa pb rs = (none, []) ∧
      (∀ t e, warp t pa pb rs = Except.error e →
        align_to_reference warp (some t) pa pb rs =
          (none, ["Error durante la alineacion espacial: " ++ e])) ∧
      (∀ ms_data rgb_data,
        (align_to_reference warp rgb_data pa pb Resampling.bilinear).1 = none →
        process_session warp ms_data pa rgb_data pb = { ms := none, rgb := none }) := by
  refine ⟨rfl, ?_, ?_⟩
  · intro t e he
    simp [align_to_reference, he]
  · intro ms_data rgb_data hnone
    rcases h : align_to_reference warp rgb_data pa pb Resampling.bilinear with ⟨res, log⟩
    rw [h] at hnone
    cases res with
    | some r => simp at hnone
    | none => simp [process_session, h]

def warpFail : NdArray → GeoProfile → GeoProfile → Resampling → Except String NdArray :=
  fun _ _ _ _ => Except.error "perfil invalido"

def profileW : GeoProfile :=
  { crs := "EPSG:32720", transform := [], width := 0, height := 0 }

theorem alignment_failure_is_recovered_witness :
    align_to_reference warpFail none profileW profileW Resampling.bilinear = (none, []) ∧
      align_to_reference warpFail (some (NdArray.d1 [])) profileW profileW Resampling.bilinear
        = (none, ["Error durante la alineacion espacial: " ++ "perfil invalido"]) ∧
      process_session warpFail none profileW (some (NdArray.d1 [])) profileW
        = { ms := none, rgb := none } :=
  ⟨(alignment_failure_is_recovered warpFail profileW profileW Resampling.bilinear).1,
   (alignment_failure_is_recovered warpFail profileW profileW Resampling.bilinear).2.1
     (NdArray.d1 []) "perfil invalido" rfl,
   (alignment_failure_is_recovered warpFail profileW profileW Resampling.bilinear).2.2
     none (some (NdArray.d1 [])) rfl⟩
